import Mathlib

/-!
Shallow embedding of `makeGen.c` (JuanJovel/makeGen), a command-line tool that
generates a fixed-format Makefile from its argument vector.

The argument vector `argv` is modelled as a `List String` (so `argc` is
`argv.length`).  The two effectful capabilities the program consumes — the
host filesystem's existence query (`access`) and `fopen` — are modelled as
boolean parameters of the run.  A run's observable outcome is a `RunResult`:
the exit code, everything printed to standard output, whether the output file
was opened, the complete content written to it (if any), and whether it was
closed.
-/

namespace MakeGen

/-- Macro `MIN_ARGS` from makeGen.c. -/
def MIN_ARGS : Nat := 4

/-- Macro `CFLAGS_FLAG_LOCATION` from makeGen.c: fixed index of the flags marker. -/
def CFLAGS_FLAG_LOCATION : Nat := 2

/-- Macro `MAKEFILE_NAME` from makeGen.c: the fixed output path. -/
def MAKEFILE_NAME : String := "Makefile"

/-- Macro `CFLAGS_FLAG` from makeGen.c. -/
def CFLAGS_FLAG : String := "-f"

/-- Macro `SOURCE_FLAG` from makeGen.c. -/
def SOURCE_FLAG : String := "-s"

/-- Macro `COMPILER_FLAG` from makeGen.c. -/
def COMPILER_FLAG : String := "-cc"

/-- Loop body of `findFlags` (makeGen.c lines 158-172): one left-to-right pass,
threading the current index and the two result cells.  Within one iteration the
source cell is updated first and the compiler condition reads the updated cell,
exactly as in the C code. -/
def findFlagsAux : List String → Nat → Option Nat → Option Nat → Option Nat × Option Nat
  | [], _, s, c => (s, c)
  | tok :: rest, i, s, c =>
    let s' := if tok = SOURCE_FLAG ∧ s = none then some i else s
    let c' := if tok = COMPILER_FLAG ∧ s' ≠ none ∧ c = none then some i else c
    findFlagsAux rest (i + 1) s' c'

/-- `findFlags` from makeGen.c: scans the whole of `argv` starting at index 0,
returning `(sourceFlagIdx, compilerFlagIdx)`, with `none` standing for the C
sentinel `FLAG_NOT_FOUND`. -/
def findFlags (argv : List String) : Option Nat × Option Nat :=
  findFlagsAux argv 0 none none

/-- Compiler resolution from `main` (makeGen.c lines 64-77): if the compiler
flag was found and is followed by at least one further argument, that argument;
otherwise the literal `gcc`. -/
def resolveCompiler (argv : List String) : String :=
  match (findFlags argv).2 with
  | some ci => if ci + 1 < argv.length then argv.getD (ci + 1) "" else "gcc"
  | none => "gcc"

/-- `sourceEnd` from `main` (makeGen.c line 125): `argc` when no compiler flag
was matched, else the compiler flag's index. -/
def sourceEndOf (argv : List String) : Nat :=
  match (findFlags argv).2 with
  | none => argv.length
  | some ci => ci

/-- Concatenation of a list of emitted strings, modelling a sequence of
`fprintf` calls on the same stream. -/
def concatAll : List String → String
  | [] => ""
  | s :: rest => s ++ concatAll rest

/-- The emission loops of `main` (makeGen.c lines 118-120 and 126-128): each
token is printed with `"%s "`, i.e. followed by exactly one space. -/
def joinSp (toks : List String) : String :=
  concatAll (toks.map (fun t => t ++ " "))

/-- The tokens `argv[lo] ... argv[hi-1]`, i.e. the ones a C loop
`for (i = lo; i < hi; i++)` visits; empty when `hi ≤ lo`. -/
def argSlice (argv : List String) (lo hi : Nat) : List String :=
  (argv.take hi).drop lo

/-- Output of `printUsage` (makeGen.c lines 205-210); the C source splits the
second line over two adjacent string literals. -/
def usageText : String :=
  "Usage:\n" ++
  "makeGen \x7bexecutableName\x7d -f \x7bCFLAGS\x7d -s \x7bSOURCE FILES\x7d [-cc \x7bdesired compiler\x7d]\n" ++
  "Fields in brackets are optional.\n"

/-- Output of the `validateInvocation` failure path (makeGen.c lines 150-154). -/
def invalidFlagsText : String :=
  "Invalid invocation.\n" ++ "Error: No flags found.\n" ++ usageText

/-- Output of the missing-sources path of `main` (makeGen.c lines 80-85). -/
def missingSourcesText : String :=
  "Invalid invocation.\n" ++ "Error: No source files flag \"-s\" found.\n" ++ usageText

/-- Output of the pre-existing-file path of `main` (makeGen.c lines 88-92). -/
def fileExistsText : String :=
  "Unable to create makefile:\n" ++ "makeFile already exists in this directory.\n"

/-- Output of the `fopen`-failure path of `main` (makeGen.c lines 101-106). -/
def fatalText : String :=
  "FATAL ERROR:\n" ++ "Unable to create makefile:\n" ++ "makeFile could not be created.\n"

/-- Output of `alertSuccess` (makeGen.c line 243). -/
def successText : String :=
  "Successfully created makefile.\n"

/-- The three `fprintf` calls of `printHeader` (makeGen.c lines 215-219). -/
def headerText : String :=
  "# Automatically generated makefile\n" ++
  "# Generated using makeGen by Juan Jovel\n" ++
  "\n"

/-- The `fprintf` calls of `printRules` (makeGen.c lines 224-238). -/
def rulesText (executableName : String) : String :=
  "\n\n" ++
  "all:\n" ++
  ("\t$(CC) $(CFLAGS) -o " ++ executableName ++ " $(TARGETS)\n") ++
  "\n" ++
  "clean:\n" ++
  ("\trm -f " ++ executableName ++ "\n") ++
  "\n" ++
  "# End automatically generated makeFile\n"

/-- Everything `main` writes to the makefile, in `fprintf` order
(makeGen.c lines 108-131): header, `CC=` line, `CFLAGS=` followed by the flag
loop and a newline, `TARGETS=` followed by the source loop (no newline of its
own), then the rules. -/
def makefileContent (argv : List String) (compiler : String) (si sourceEnd : Nat) : String :=
  headerText ++
  ("CC=" ++ compiler ++ "\n") ++
  "CFLAGS=" ++
  joinSp (argSlice argv (CFLAGS_FLAG_LOCATION + 1) si) ++
  "\n" ++
  "TARGETS=" ++
  joinSp (argSlice argv (si + 1) sourceEnd) ++
  rulesText (argv.getD 1 "")

/-- Observable outcome of one run of the program. -/
structure RunResult where
  exitCode : Nat
  stdout : String
  opened : Bool
  written : Option String
  closed : Bool
deriving DecidableEq

/-- `main` from makeGen.c, as a pure function of the argument vector, the
filesystem's answer to the `access` existence query, and whether `fopen`
succeeds.  Mirrors the C control flow: argument-count check, `validateInvocation`,
`findFlags`, missing-sources check, existence check, open, write, close. -/
def mainRun (argv : List String) (makefileAlreadyExists fopenSucceeds : Bool) : RunResult :=
  if argv.length = 1 ∨ argv.length < MIN_ARGS then
    ⟨0, usageText, false, none, false⟩
  else if argv.getD CFLAGS_FLAG_LOCATION "" ≠ CFLAGS_FLAG then
    ⟨1, invalidFlagsText, false, none, false⟩
  else
    match (findFlags argv).1 with
    | none => ⟨1, missingSourcesText, false, none, false⟩
    | some si =>
      if makefileAlreadyExists then
        ⟨1, fileExistsText, false, none, false⟩
      else if fopenSucceeds = false then
        ⟨1, fatalText, true, none, false⟩
      else
        ⟨0, successText, true,
          some (makefileContent argv (resolveCompiler argv) si (sourceEndOf argv)), true⟩

/-- First index `j ≥ i` (counting the head of the list as index `i`) whose
token satisfies `p`; spec-side helper for the Flag Locator contract of §4.2
("scan left to right, first match wins"). -/
def firstIdxFrom (p : String → Prop) [DecidablePred p] : List String → Nat → Option Nat
  | [], _ => none
  | t :: ts, i => if p t then some i else firstIdxFrom p ts (i + 1)

/-- Spec-side sources-marker index: first occurrence of `-s`, scanning the full
token sequence left to right (§4.2). -/
def specSourceIdx (argv : List String) : Option Nat :=
  firstIdxFrom (fun t => t = SOURCE_FLAG) argv 0

/-- Spec-side compiler-marker index: the first occurrence of `-cc` strictly
after the first `-s`, and `none` when `-s` is absent or no such `-cc` exists
(§4.2: a compiler marker at or before the sources marker is ignored). -/
def specCompilerIdx (argv : List String) : Option Nat :=
  match specSourceIdx argv with
  | none => none
  | some si => firstIdxFrom (fun t => t = COMPILER_FLAG) (argv.drop (si + 1)) (si + 1)

/-- Spec-side compiler resolution (§6): the token following the matched `-cc`
when there is one, otherwise the fixed default `gcc`. -/
def specCompiler (argv : List String) : String :=
  match specCompilerIdx argv with
  | none => "gcc"
  | some ci => if ci + 1 < argv.length then argv.getD (ci + 1) "" else "gcc"

/-- The generated file as the fixed sequence of lines of §4.3, each entry one
line including its terminating newline (blank lines are a bare newline): the
two header comments, a blank line, the `CC=` line, the `CFLAGS=` line with the
space-joined flag tokens, the `TARGETS=` line with the space-joined source
tokens, a blank line, the `all:` rule with its tab-indented body, a blank line,
the `clean:` rule with its tab-indented body, a blank line, and the end
comment. -/
def specLines (compiler : String) (flags sources : List String) (outputName : String) : List String :=
  ["# Automatically generated makefile\n",
   "# Generated using makeGen by Juan Jovel\n",
   "\n",
   "CC=" ++ compiler ++ "\n",
   "CFLAGS=" ++ joinSp flags ++ "\n",
   "TARGETS=" ++ joinSp sources ++ "\n",
   "\n",
   "all:\n",
   "\t$(CC) $(CFLAGS) -o " ++ outputName ++ " $(TARGETS)\n",
   "\n",
   "clean:\n",
   "\trm -f " ++ outputName ++ "\n",
   "\n",
   "# End automatically generated makeFile\n"]

/-! ### Helper lemmas -/

theorem findFlagsAux_frozen (l : List String) :
    ∀ i si ci, findFlagsAux l i (some si) (some ci) = (some si, some ci) := by
  induction l with
  | nil => intro i si ci; rfl
  | cons t ts ih =>
    intro i si ci
    simp only [findFlagsAux, reduceCtorEq, and_false, if_false, ne_eq, if_neg,
      not_false_eq_true, and_true, false_and]
    exact ih (i + 1) si ci

theorem findFlagsAux_src_found (l : List String) :
    ∀ i si, findFlagsAux l i (some si) none =
      (some si, firstIdxFrom (fun t => t = COMPILER_FLAG) l i) := by
  induction l with
  | nil => intro i si; rfl
  | cons t ts ih =>
    intro i si
    by_cases h : t = COMPILER_FLAG
    · simp only [findFlagsAux, firstIdxFrom, h, reduceCtorEq, and_false, if_false,
        ne_eq, not_false_eq_true, true_and, and_true, if_true, if_pos]
      exact findFlagsAux_frozen ts (i + 1) si i
    · simp only [findFlagsAux, firstIdxFrom, h, reduceCtorEq, and_false, if_false,
        false_and, if_neg, not_false_eq_true]
      exact ih (i + 1) si

theorem firstIdxFrom_ge (p : String → Prop) [DecidablePred p] (l : List String) :
    ∀ i j, firstIdxFrom p l i = some j → i ≤ j := by
  induction l with
  | nil => intro i j h; simp [firstIdxFrom] at h
  | cons t ts ih =>
    intro i j h
    by_cases hp : p t
    · simp only [firstIdxFrom, if_pos hp, Option.some.injEq] at h
      omega
    · simp only [firstIdxFrom, if_neg hp] at h
      have := ih (i + 1) j h
      omega

theorem findFlagsAux_none (l : List String) :
    ∀ i, findFlagsAux l i none none =
      (firstIdxFrom (fun t => t = SOURCE_FLAG) l i,
       match firstIdxFrom (fun t => t = SOURCE_FLAG) l i with
       | none => none
       | some si => firstIdxFrom (fun t => t = COMPILER_FLAG) (l.drop (si + 1 - i)) (si + 1)) := by
  induction l with
  | nil => intro i; rfl
  | cons t ts ih =>
    intro i
    by_cases h : t = SOURCE_FLAG
    · have hcc : ¬(t = COMPILER_FLAG) := by rw [h]; decide
      simp only [findFlagsAux, firstIdxFrom, h, and_true, if_pos, hcc, false_and, if_neg,
        not_false_eq_true, Nat.add_sub_cancel_left, Nat.add_sub_cancel, List.drop_succ_cons,
        List.drop_zero]
      exact findFlagsAux_src_found ts (i + 1) i
    · simp only [findFlagsAux, firstIdxFrom, h, false_and, if_neg, not_false_eq_true,
        reduceCtorEq, and_false, if_false, ne_eq, eq_self_iff_true, not_true_eq_false,
        and_true]
      rw [ih (i + 1)]
      cases hj : firstIdxFrom (fun t => t = SOURCE_FLAG) ts (i + 1) with
      | none => rfl
      | some si =>
        have hge : i + 1 ≤ si := firstIdxFrom_ge _ ts (i + 1) si hj
        have harith : si + 1 - i = (si + 1 - (i + 1)) + 1 := by omega
        simp only [harith, List.drop_succ_cons]

theorem findFlags_eq_spec (argv : List String) :
    findFlags argv = (specSourceIdx argv, specCompilerIdx argv) := by
  rw [findFlags, findFlagsAux_none argv 0, specSourceIdx, specCompilerIdx, specSourceIdx]
  cases firstIdxFrom (fun t => t = SOURCE_FLAG) argv 0 with
  | none => rfl
  | some si => simp only [Nat.sub_zero]

theorem firstIdxFrom_eq_none (p : String → Prop) [DecidablePred p] (l : List String)
    (hl : ∀ x ∈ l, ¬p x) : ∀ i, firstIdxFrom p l i = none := by
  induction l with
  | nil => intro i; rfl
  | cons t ts ih =>
    intro i
    have ht : ¬p t := hl t (List.mem_cons_self t ts)
    simp only [firstIdxFrom, if_neg ht]
    exact ih (fun x hx => hl x (List.mem_cons_of_mem t hx)) (i + 1)

theorem firstIdxFrom_not_mem_take (p : String → Prop) [DecidablePred p] (l : List String) :
    ∀ i j, firstIdxFrom p l i = some j → ∀ x ∈ l.take (j - i), ¬p x := by
  induction l with
  | nil => intro i j h; simp [firstIdxFrom] at h
  | cons t ts ih =>
    intro i j h x hx
    by_cases hp : p t
    · simp only [firstIdxFrom, if_pos hp, Option.some.injEq] at h
      subst h
      simp at hx
    · simp only [firstIdxFrom, if_neg hp] at h
      have hge : i + 1 ≤ j := firstIdxFrom_ge p ts (i + 1) j h
      have harith : j - i = (j - (i + 1)) + 1 := by omega
      rw [harith, List.take_succ_cons] at hx
      rcases List.mem_cons.mp hx with rfl | hx'
      · exact hp
      · exact ih (i + 1) j h x hx'

theorem resolveCompiler_eq_specCompiler (argv : List String) :
    resolveCompiler argv = specCompiler argv := by
  rw [resolveCompiler, specCompiler, findFlags_eq_spec]
  cases specCompilerIdx argv with
  | none => rfl
  | some ci => rfl

theorem newline_pair : ("\n\n" : String) = "\n" ++ "\n" := rfl

theorem makefileContent_eq_specLines (argv : List String) (c : String) (si se : Nat) :
    makefileContent argv c si se =
      concatAll (specLines c (argSlice argv (CFLAGS_FLAG_LOCATION + 1) si)
        (argSlice argv (si + 1) se) (argv.getD 1 "")) := by
  simp only [makefileContent, specLines, concatAll, headerText, rulesText, newline_pair,
    String.append_empty, String.append_assoc]

theorem mainRun_usage (argv : List String) (h : argv.length < MIN_ARGS) (ex ok : Bool) :
    mainRun argv ex ok = ⟨0, usageText, false, none, false⟩ := by
  rw [mainRun, if_pos (Or.inr h)]

theorem mainRun_badFlagMarker (argv : List String) (h4 : MIN_ARGS ≤ argv.length)
    (hf : argv.getD CFLAGS_FLAG_LOCATION "" ≠ CFLAGS_FLAG) (ex ok : Bool) :
    mainRun argv ex ok = ⟨1, invalidFlagsText, false, none, false⟩ := by
  have h1 : ¬(argv.length = 1 ∨ argv.length < MIN_ARGS) := by
    simp only [MIN_ARGS] at h4 ⊢
    omega
  rw [mainRun, if_neg h1, if_pos hf]

theorem mainRun_missingSources (argv : List String) (h4 : MIN_ARGS ≤ argv.length)
    (hf : argv.getD CFLAGS_FLAG_LOCATION "" = CFLAGS_FLAG)
    (hs : (findFlags argv).1 = none) (ex ok : Bool) :
    mainRun argv ex ok = ⟨1, missingSourcesText, false, none, false⟩ := by
  have h1 : ¬(argv.length = 1 ∨ argv.length < MIN_ARGS) := by
    simp only [MIN_ARGS] at h4 ⊢
    omega
  rw [mainRun, if_neg h1, if_neg (not_not_intro hf), hs]

theorem mainRun_pastChecks (argv : List String) (si : Nat) (h4 : MIN_ARGS ≤ argv.length)
    (hf : argv.getD CFLAGS_FLAG_LOCATION "" = CFLAGS_FLAG)
    (hs : (findFlags argv).1 = some si) (ex ok : Bool) :
    mainRun argv ex ok =
      if ex then ⟨1, fileExistsText, false, none, false⟩
      else if ok = false then ⟨1, fatalText, true, none, false⟩
      else ⟨0, successText, true,
        some (makefileContent argv (resolveCompiler argv) si (sourceEndOf argv)), true⟩ := by
  have h1 : ¬(argv.length = 1 ∨ argv.length < MIN_ARGS) := by
    simp only [MIN_ARGS] at h4 ⊢
    omega
  rw [mainRun, if_neg h1, if_neg (not_not_intro hf), hs]

theorem mainRun_success (argv : List String) (si : Nat) (h4 : MIN_ARGS ≤ argv.length)
    (hf : argv.getD CFLAGS_FLAG_LOCATION "" = CFLAGS_FLAG)
    (hs : (findFlags argv).1 = some si) :
    mainRun argv false true = ⟨0, successText, true,
      some (makefileContent argv (resolveCompiler argv) si (sourceEndOf argv)), true⟩ :=
  (mainRun_pastChecks argv si h4 hf hs false true).trans rfl

theorem argSlice_eq_take_drop (l : List String) (lo hi : Nat) (h : lo ≤ hi) :
    argSlice l lo hi = (l.drop lo).take (hi - lo) := by
  rw [argSlice, List.take_drop, Nat.add_sub_cancel' h]

theorem argSlice_self (l : List String) (n : Nat) : argSlice l n n = [] := by
  rw [argSlice]
  exact List.drop_eq_nil_of_le (List.length_take_le n l)

/-! ### Sample invocations used by the witnesses -/

/-- Default-compiler scenario of §8: `build -f -O2 -s a.c b.c`. -/
def args1 : List String := ["makeGen", "build", "-f", "-O2", "-s", "a.c", "b.c"]

/-- Sample usage from the makeGen.c header comment. -/
def args2 : List String :=
  ["makeGen", "myProgram", "-f", "-Wall", "-g", "-O0", "-s", "file1.c", "file2.c", "file3.c"]

/-- Explicit-compiler scenario of §8: `build -f -O2 -s a.c b.c -cc clang`. -/
def args3 : List String := ["makeGen", "build", "-f", "-O2", "-s", "a.c", "b.c", "-cc", "clang"]

/-- Missing-sources scenario of §8: `build -f -O2`. -/
def args4 : List String := ["makeGen", "build", "-f", "-O2"]

/-- Invocation whose flag and source sub-sequences are both empty. -/
def args5 : List String := ["makeGen", "build", "-f", "-s"]

/-! ### Claims -/

/-- C1: for every valid invocation (at least 4 arguments, `-f` at index 2, a
sources marker found, no pre-existing output file, `fopen` succeeding), the
generated file is, bit for bit, exactly the fixed sequence of lines of §4.3:
the two header comment lines, a blank line, the `CC=` line with the resolved
compiler, the `CFLAGS=` line with the space-joined flag tokens and trailing
space, the `TARGETS=` line with the space-joined source tokens and trailing
space, a blank line, the `all:` rule with its tab-indented body, a blank line,
the `clean:` rule with its tab-indented body, a blank line, and the end comment
line. -/
theorem c1_generated_file_exact (argv : List String) (si : Nat)
    (h4 : MIN_ARGS ≤ argv.length)
    (hf : argv.getD CFLAGS_FLAG_LOCATION "" = CFLAGS_FLAG)
    (hs : (findFlags argv).1 = some si) :
    (mainRun argv false true).written =
      some (concatAll (specLines (resolveCompiler argv)
        (argSlice argv (CFLAGS_FLAG_LOCATION + 1) si)
        (argSlice argv (si + 1) (sourceEndOf argv))
        (argv.getD 1 ""))) := by
  rw [mainRun_success argv si h4 hf hs]
  exact congrArg some (makefileContent_eq_specLines argv _ si (sourceEndOf argv))

/-- Witness for C1 at the default-compiler scenario. -/
theorem c1_generated_file_exact_witness :
    (mainRun args1 false true).written =
      some (concatAll (specLines (resolveCompiler args1)
        (argSlice args1 (CFLAGS_FLAG_LOCATION + 1) 4)
        (argSlice args1 (4 + 1) (sourceEndOf args1))
        (args1.getD 1 ""))) :=
  c1_generated_file_exact args1 4 (by decide) (by decide) (by decide)

/-- C2: on every valid invocation, the generated file's `CFLAGS=` line contains
exactly the tokens strictly between the flags marker at fixed index 2 and the
sources marker, in their original order, each followed by one space (so
single-space separated with one trailing space), followed by the line break;
the stated decomposition pins the line between the `CC=` line and the
`TARGETS=` line. -/
theorem c2_cflags_line_exact (argv : List String) (si : Nat)
    (h4 : MIN_ARGS ≤ argv.length)
    (hf : argv.getD CFLAGS_FLAG_LOCATION "" = CFLAGS_FLAG)
    (hs : (findFlags argv).1 = some si)
    (_hN : 1 ≤ (argSlice argv (CFLAGS_FLAG_LOCATION + 1) si).length) :
    (mainRun argv false true).written =
      some (("# Automatically generated makefile\n" ++
             "# Generated using makeGen by Juan Jovel\n" ++
             "\n" ++
             ("CC=" ++ resolveCompiler argv ++ "\n")) ++
            ("CFLAGS=" ++ joinSp (argSlice argv (CFLAGS_FLAG_LOCATION + 1) si) ++ "\n") ++
            ("TARGETS=" ++ joinSp (argSlice argv (si + 1) (sourceEndOf argv)) ++
             rulesText (argv.getD 1 ""))) := by
  rw [mainRun_success argv si h4 hf hs]
  exact congrArg some (by simp only [makefileContent, headerText, String.append_assoc])

/-- Witness for C2 at the sample usage of the makeGen.c header (three flag
tokens). -/
theorem c2_cflags_line_exact_witness :
    (mainRun args2 false true).written =
      some (("# Automatically generated makefile\n" ++
             "# Generated using makeGen by Juan Jovel\n" ++
             "\n" ++
             ("CC=" ++ resolveCompiler args2 ++ "\n")) ++
            ("CFLAGS=" ++ joinSp (argSlice args2 (CFLAGS_FLAG_LOCATION + 1) 6) ++ "\n") ++
            ("TARGETS=" ++ joinSp (argSlice args2 (6 + 1) (sourceEndOf args2)) ++
             rulesText (args2.getD 1 ""))) :=
  c2_cflags_line_exact args2 6 (by decide) (by decide) (by decide) (by decide)

/-- C3: on every valid invocation, the generated file's `TARGETS=` line contains
exactly the tokens strictly between the sources marker and `sourceEnd` — the
matched compiler marker's index when one exists, else the end of input —
space-joined with one trailing space; the `-cc` marker itself never occurs
among those tokens, and the compiler name at index `ci + 1` lies outside the
emitted range. -/
theorem c3_targets_line_exact (argv : List String) (si : Nat)
    (h4 : MIN_ARGS ≤ argv.length)
    (hf : argv.getD CFLAGS_FLAG_LOCATION "" = CFLAGS_FLAG)
    (hs : (findFlags argv).1 = some si) :
    (mainRun argv false true).written =
      some ((headerText ++ ("CC=" ++ resolveCompiler argv ++ "\n") ++
             ("CFLAGS=" ++ joinSp (argSlice argv (CFLAGS_FLAG_LOCATION + 1) si) ++ "\n")) ++
            ("TARGETS=" ++ joinSp (argSlice argv (si + 1) (sourceEndOf argv)) ++ "\n") ++
            ("\n" ++ "all:\n" ++
             ("\t$(CC) $(CFLAGS) -o " ++ argv.getD 1 "" ++ " $(TARGETS)\n") ++
             "\n" ++ "clean:\n" ++ ("\trm -f " ++ argv.getD 1 "" ++ "\n") ++ "\n" ++
             "# End automatically generated makeFile\n")) ∧
    ((findFlags argv).2 = none → sourceEndOf argv = argv.length) ∧
    (∀ ci, (findFlags argv).2 = some ci →
      sourceEndOf argv = ci ∧ si + 1 ≤ ci ∧
      COMPILER_FLAG ∉ argSlice argv (si + 1) ci) := by
  refine ⟨?_, fun hc => ?_, fun ci hc => ?_⟩
  · rw [mainRun_success argv si h4 hf hs]
    exact congrArg some
      (by simp only [makefileContent, rulesText, newline_pair, String.append_assoc])
  · simp only [sourceEndOf, hc]
  · have hsi : specSourceIdx argv = some si := by
      have := congrArg Prod.fst (findFlags_eq_spec argv)
      rw [hs] at this
      exact this.symm
    have hci : firstIdxFrom (fun t => t = COMPILER_FLAG) (argv.drop (si + 1)) (si + 1) = some ci := by
      have := congrArg Prod.snd (findFlags_eq_spec argv)
      rw [hc] at this
      rw [specCompilerIdx, hsi] at this
      exact this.symm
    have hge : si + 1 ≤ ci := firstIdxFrom_ge _ (argv.drop (si + 1)) (si + 1) ci hci
    refine ⟨by simp only [sourceEndOf, hc], hge, fun hmem => ?_⟩
    rw [argSlice_eq_take_drop argv (si + 1) ci hge] at hmem
    exact firstIdxFrom_not_mem_take _ (argv.drop (si + 1)) (si + 1) ci hci _ hmem rfl

/-- Witness for C3 at the explicit-compiler scenario (the `-cc clang` suffix is
excluded from the targets). -/
theorem c3_targets_line_exact_witness :
    (mainRun args3 false true).written =
      some ((headerText ++ ("CC=" ++ resolveCompiler args3 ++ "\n") ++
             ("CFLAGS=" ++ joinSp (argSlice args3 (CFLAGS_FLAG_LOCATION + 1) 4) ++ "\n")) ++
            ("TARGETS=" ++ joinSp (argSlice args3 (4 + 1) (sourceEndOf args3)) ++ "\n") ++
            ("\n" ++ "all:\n" ++
             ("\t$(CC) $(CFLAGS) -o " ++ args3.getD 1 "" ++ " $(TARGETS)\n") ++
             "\n" ++ "clean:\n" ++ ("\trm -f " ++ args3.getD 1 "" ++ "\n") ++ "\n" ++
             "# End automatically generated makeFile\n")) ∧
    ((findFlags args3).2 = none → sourceEndOf args3 = args3.length) ∧
    (∀ ci, (findFlags args3).2 = some ci →
      sourceEndOf args3 = ci ∧ 4 + 1 ≤ ci ∧
      COMPILER_FLAG ∉ argSlice args3 (4 + 1) ci) :=
  c3_targets_line_exact args3 4 (by decide) (by decide) (by decide)

/-- C4: the emitted compiler name equals the spec's resolution policy — the
token following the first `-cc` that occurs strictly after the first `-s`, when
that `-cc` is followed by at least one further token, and the fixed default
`gcc` in every other case (no `-s`, no eligible `-cc`, or `-cc` last); and on a
valid generating invocation the `CC=` line of the written file carries exactly
that name. -/
theorem c4_compiler_resolution (argv : List String) :
    resolveCompiler argv = specCompiler argv ∧
    (∀ si, MIN_ARGS ≤ argv.length → argv.getD CFLAGS_FLAG_LOCATION "" = CFLAGS_FLAG →
      (findFlags argv).1 = some si →
      (mainRun argv false true).written =
        some (headerText ++ ("CC=" ++ specCompiler argv ++ "\n") ++
          ("CFLAGS=" ++ joinSp (argSlice argv (CFLAGS_FLAG_LOCATION + 1) si) ++ "\n") ++
          ("TARGETS=" ++ joinSp (argSlice argv (si + 1) (sourceEndOf argv)) ++
            rulesText (argv.getD 1 "")))) := by
  refine ⟨resolveCompiler_eq_specCompiler argv, fun si h4 hf hs => ?_⟩
  rw [mainRun_success argv si h4 hf hs, ← resolveCompiler_eq_specCompiler argv]
  exact congrArg some (by simp only [makefileContent, String.append_assoc])

/-- Witness for C4 at the explicit-compiler scenario: the `CC=` line carries
`clang`. -/
theorem c4_compiler_resolution_witness :
    specCompiler args3 = "clang" ∧
    (mainRun args3 false true).written =
      some (headerText ++ ("CC=" ++ specCompiler args3 ++ "\n") ++
        ("CFLAGS=" ++ joinSp (argSlice args3 (CFLAGS_FLAG_LOCATION + 1) 4) ++ "\n") ++
        ("TARGETS=" ++ joinSp (argSlice args3 (4 + 1) (sourceEndOf args3)) ++
          rulesText (args3.getD 1 ""))) :=
  ⟨by decide, (c4_compiler_resolution args3).2 4 (by decide) (by decide) (by decide)⟩

/-- C5: whenever at least 4 arguments are given, `-f` sits at index 2, and the
token `-s` occurs nowhere in the argument vector, the program reports the
missing-sources error followed by the usage text, exits with code 1, never
opens the output file and writes nothing, whatever the filesystem answers. -/
theorem c5_missing_sources_error (argv : List String)
    (h4 : MIN_ARGS ≤ argv.length)
    (hf : argv.getD CFLAGS_FLAG_LOCATION "" = CFLAGS_FLAG)
    (hns : SOURCE_FLAG ∉ argv) (ex ok : Bool) :
    mainRun argv ex ok = ⟨1, missingSourcesText, false, none, false⟩ := by
  have hnone : (findFlags argv).1 = none := by
    rw [findFlags_eq_spec]
    exact firstIdxFrom_eq_none _ argv
      (fun x hx heq => hns ((show x = SOURCE_FLAG from heq) ▸ hx)) 0
  exact mainRun_missingSources argv h4 hf hnone ex ok

/-- Witness for C5 at the missing-sources scenario `build -f -O2`. -/
theorem c5_missing_sources_error_witness :
    mainRun args4 false true = ⟨1, missingSourcesText, false, none, false⟩ :=
  c5_missing_sources_error args4 (by decide) (by decide) (by decide) false true

/-- C6: on a valid invocation, if the output file already exists the run stops
with the file-exists error and exit code 1 without ever opening the file (so
the existing file is untouched), whether or not `fopen` would have succeeded;
and the same invocation with no pre-existing file succeeds and writes the
makefile — hence a second run after a successful first one fails and preserves
the first run's output. -/
theorem c6_existing_file_preserved (argv : List String) (si : Nat)
    (h4 : MIN_ARGS ≤ argv.length)
    (hf : argv.getD CFLAGS_FLAG_LOCATION "" = CFLAGS_FLAG)
    (hs : (findFlags argv).1 = some si) :
    (∀ ok, mainRun argv true ok = ⟨1, fileExistsText, false, none, false⟩) ∧
    (mainRun argv false true).exitCode = 0 ∧
    (mainRun argv false true).written =
      some (makefileContent argv (resolveCompiler argv) si (sourceEndOf argv)) := by
  refine ⟨fun ok => ?_, ?_, ?_⟩
  · rw [mainRun_pastChecks argv si h4 hf hs true ok]
    rfl
  · rw [mainRun_success argv si h4 hf hs]
  · rw [mainRun_success argv si h4 hf hs]

/-- Witness for C6 at the explicit-compiler scenario. -/
theorem c6_existing_file_preserved_witness :
    (∀ ok, mainRun args3 true ok = ⟨1, fileExistsText, false, none, false⟩) ∧
    (mainRun args3 false true).exitCode = 0 ∧
    (mainRun args3 false true).written =
      some (makefileContent args3 (resolveCompiler args3) 4 (sourceEndOf args3)) :=
  c6_existing_file_preserved args3 4 (by decide) (by decide) (by decide)

/-- C7: an invocation with fewer than 4 tokens prints exactly the usage text and
exits with code 0, creating nothing; an invocation with at least 4 tokens whose
token at index 2 is not the literal `-f` prints the no-flags error followed by
the usage text and exits with code 1 — the exit-code asymmetry of §9. -/
theorem c7_usage_exit_codes (argv : List String) (ex ok : Bool) :
    (argv.length < MIN_ARGS → mainRun argv ex ok = ⟨0, usageText, false, none, false⟩) ∧
    (MIN_ARGS ≤ argv.length → argv.getD CFLAGS_FLAG_LOCATION "" ≠ CFLAGS_FLAG →
      mainRun argv ex ok = ⟨1, invalidFlagsText, false, none, false⟩) :=
  ⟨fun h => mainRun_usage argv h ex ok,
   fun h4 hf => mainRun_badFlagMarker argv h4 hf ex ok⟩

/-- Witness for C7: a 3-token invocation exits 0 with the usage text; a 4-token
invocation with a misspelled flags marker exits 1. -/
theorem c7_usage_exit_codes_witness :
    mainRun ["makeGen", "build", "-f"] false true = ⟨0, usageText, false, none, false⟩ ∧
    mainRun ["makeGen", "build", "-x", "a.c"] false true =
      ⟨1, invalidFlagsText, false, none, false⟩ :=
  ⟨(c7_usage_exit_codes ["makeGen", "build", "-f"] false true).1 (by decide),
   (c7_usage_exit_codes ["makeGen", "build", "-x", "a.c"] false true).2 (by decide) (by decide)⟩

/-- C8: no run leaves a partially written file.  Every error exit writes
nothing; the output file is opened only after the argument-count check, the
flags-marker check, the sources-marker search and the existence check have all
succeeded; and once it is opened, either `fopen` failed and nothing is written,
or the complete content is written and the file closed with the run reporting
success. -/
theorem c8_no_partial_file (argv : List String) (ex ok : Bool) :
    ((mainRun argv ex ok).exitCode ≠ 0 → (mainRun argv ex ok).written = none) ∧
    ((mainRun argv ex ok).opened = false → (mainRun argv ex ok).written = none) ∧
    ((mainRun argv ex ok).opened = true →
      MIN_ARGS ≤ argv.length ∧ argv.getD CFLAGS_FLAG_LOCATION "" = CFLAGS_FLAG ∧
      (findFlags argv).1.isSome = true ∧ ex = false ∧
      ((ok = false ∧ (mainRun argv ex ok).written = none ∧
        (mainRun argv ex ok).exitCode = 1) ∨
       (ok = true ∧ (mainRun argv ex ok).closed = true ∧
        (mainRun argv ex ok).exitCode = 0 ∧
        ∃ si, (findFlags argv).1 = some si ∧
          (mainRun argv ex ok).written =
            some (makefileContent argv (resolveCompiler argv) si (sourceEndOf argv))))) := by
  by_cases h1 : argv.length < MIN_ARGS
  · rw [mainRun_usage argv h1 ex ok]
    exact ⟨fun _ => rfl, fun _ => rfl, fun hop => Bool.noConfusion hop⟩
  have h4 : MIN_ARGS ≤ argv.length := Nat.le_of_not_lt h1
  by_cases hf : argv.getD CFLAGS_FLAG_LOCATION "" = CFLAGS_FLAG
  · cases hfl : (findFlags argv).1 with
    | none =>
      rw [mainRun_missingSources argv h4 hf hfl ex ok]
      exact ⟨fun _ => rfl, fun _ => rfl, fun hop => Bool.noConfusion hop⟩
    | some si =>
      cases ex with
      | true =>
        rw [(mainRun_pastChecks argv si h4 hf hfl true ok).trans rfl]
        exact ⟨fun _ => rfl, fun _ => rfl, fun hop => Bool.noConfusion hop⟩
      | false =>
        cases ok with
        | false =>
          rw [(mainRun_pastChecks argv si h4 hf hfl false false).trans rfl]
          exact ⟨fun _ => rfl, fun _ => rfl,
            fun _ => ⟨h4, hf, rfl, rfl, Or.inl ⟨rfl, rfl, rfl⟩⟩⟩
        | true =>
          rw [mainRun_success argv si h4 hf hfl]
          exact ⟨fun h => absurd rfl h, fun hop => Bool.noConfusion hop,
            fun _ => ⟨h4, hf, rfl, rfl,
              Or.inr ⟨rfl, rfl, rfl, si, rfl, rfl⟩⟩⟩
  · rw [mainRun_badFlagMarker argv h4 hf ex ok]
    exact ⟨fun _ => rfl, fun _ => rfl, fun hop => Bool.noConfusion hop⟩

/-- Witness for C8: an error exit (pre-existing file) writes nothing, and a
successful run opens the file only with all checks passed, writing the complete
content. -/
theorem c8_no_partial_file_witness :
    (mainRun args2 true true).written = none ∧
    (MIN_ARGS ≤ args2.length ∧ args2.getD CFLAGS_FLAG_LOCATION "" = CFLAGS_FLAG ∧
      (findFlags args2).1.isSome = true ∧ false = false ∧
      ((true = false ∧ (mainRun args2 false true).written = none ∧
        (mainRun args2 false true).exitCode = 1) ∨
       (true = true ∧ (mainRun args2 false true).closed = true ∧
        (mainRun args2 false true).exitCode = 0 ∧
        ∃ si, (findFlags args2).1 = some si ∧
          (mainRun args2 false true).written =
            some (makefileContent args2 (resolveCompiler args2) si (sourceEndOf args2))))) :=
  ⟨(c8_no_partial_file args2 true true).1 (by decide),
   (c8_no_partial_file args2 false true).2.2 (by decide)⟩

/-- C9 counterexample: the claim quantifies over every invocation with
`argc ≥ 4`, `argv[2] = "-f"` and `argv[1] = "-s"`, and asserts that `findFlags`
reports the sources marker at index 1; with a program name (`argv[0]`) also
equal to `-s`, the left-to-right scan instead matches index 0. -/
theorem c9_scan_counterexample :
    4 ≤ (["-s", "-s", "-f", "a.c"] : List String).length ∧
    (["-s", "-s", "-f", "a.c"] : List String).getD CFLAGS_FLAG_LOCATION "" = CFLAGS_FLAG ∧
    (["-s", "-s", "-f", "a.c"] : List String).getD 1 "" = SOURCE_FLAG ∧
    ¬(findFlags ["-s", "-s", "-f", "a.c"]).1 = some 1 ∧
    (findFlags ["-s", "-s", "-f", "a.c"]).1 = some 0 := by decide

/-- C9 (amended): the marker scan starts at index 0 and inspects the
program-name and output-binary-name positions; for every invocation with
`argc ≥ 4`, `argv[2] = "-f"`, an output-binary name `argv[1]` equal to `-s`,
and a program name `argv[0]` different from `-s`, `findFlags` reports the
sources marker at index 1, so the generated file's `CFLAGS=` line contains no
tokens (the loop range from index 3 up to index 1 is empty) and its `TARGETS=`
line begins with the `-f` token at index 2. -/
theorem c9_scan_from_zero_amended (argv : List String) (p r0 : String)
    (rest : List String)
    (hargv : argv = p :: SOURCE_FLAG :: CFLAGS_FLAG :: r0 :: rest)
    (hp : p ≠ SOURCE_FLAG) :
    (findFlags argv).1 = some 1 ∧
    argSlice argv (CFLAGS_FLAG_LOCATION + 1) 1 = [] ∧
    joinSp (argSlice argv (CFLAGS_FLAG_LOCATION + 1) 1) = "" ∧
    2 < sourceEndOf argv ∧
    (argSlice argv (1 + 1) (sourceEndOf argv)).getD 0 "" = CFLAGS_FLAG ∧
    (mainRun argv false true).written =
      some (makefileContent argv (resolveCompiler argv) 1 (sourceEndOf argv)) := by
  subst hargv
  have hs : (findFlags (p :: SOURCE_FLAG :: CFLAGS_FLAG :: r0 :: rest)).1 = some 1 := by
    rw [findFlags_eq_spec]
    simp only [specSourceIdx, firstIdxFrom, hp, if_neg, not_false_eq_true, if_pos]
  have hse : 2 < sourceEndOf (p :: SOURCE_FLAG :: CFLAGS_FLAG :: r0 :: rest) := by
    have h2 := congrArg Prod.snd (findFlags_eq_spec (p :: SOURCE_FLAG :: CFLAGS_FLAG :: r0 :: rest))
    have hsi : specSourceIdx (p :: SOURCE_FLAG :: CFLAGS_FLAG :: r0 :: rest) = some 1 := by
      simp only [specSourceIdx, firstIdxFrom, hp, if_neg, not_false_eq_true, if_pos]
    rw [specCompilerIdx, hsi] at h2
    have hff : ¬(CFLAGS_FLAG = COMPILER_FLAG) := by decide
    simp only [List.drop_succ_cons, List.drop_zero, firstIdxFrom, hff, if_neg,
      not_false_eq_true] at h2
    by_cases hr : r0 = COMPILER_FLAG
    · rw [if_pos hr] at h2
      simp only [sourceEndOf, h2]
      omega
    · rw [if_neg hr] at h2
      cases hcc : firstIdxFrom (fun t => t = COMPILER_FLAG) rest (1 + 1 + 1 + 1) with
      | none =>
        rw [hcc] at h2
        simp only [sourceEndOf, h2, List.length_cons]
        omega
      | some ci =>
        rw [hcc] at h2
        have := firstIdxFrom_ge _ rest (1 + 1 + 1 + 1) ci hcc
        simp only [sourceEndOf, h2]
        omega
  refine ⟨hs, rfl, rfl, hse, ?_, ?_⟩
  · obtain ⟨k, hk⟩ : ∃ k, sourceEndOf (p :: SOURCE_FLAG :: CFLAGS_FLAG :: r0 :: rest) = k + 3 :=
      ⟨sourceEndOf (p :: SOURCE_FLAG :: CFLAGS_FLAG :: r0 :: rest) - 3, by omega⟩
    rw [hk]
    simp [argSlice, List.take_succ_cons]
  · exact congrArg RunResult.written
      (mainRun_success (p :: SOURCE_FLAG :: CFLAGS_FLAG :: r0 :: rest) 1
        (by simp [MIN_ARGS]) rfl hs)

/-- Witness for the amended C9 at `makeGen -s -f a.c`. -/
theorem c9_scan_from_zero_amended_witness :
    (findFlags ["makeGen", "-s", "-f", "a.c"]).1 = some 1 ∧
    argSlice ["makeGen", "-s", "-f", "a.c"] (CFLAGS_FLAG_LOCATION + 1) 1 = [] ∧
    joinSp (argSlice ["makeGen", "-s", "-f", "a.c"] (CFLAGS_FLAG_LOCATION + 1) 1) = "" ∧
    2 < sourceEndOf ["makeGen", "-s", "-f", "a.c"] ∧
    (argSlice ["makeGen", "-s", "-f", "a.c"] (1 + 1)
      (sourceEndOf ["makeGen", "-s", "-f", "a.c"])).getD 0 "" = CFLAGS_FLAG ∧
    (mainRun ["makeGen", "-s", "-f", "a.c"] false true).written =
      some (makefileContent ["makeGen", "-s", "-f", "a.c"]
        (resolveCompiler ["makeGen", "-s", "-f", "a.c"]) 1
        (sourceEndOf ["makeGen", "-s", "-f", "a.c"])) :=
  c9_scan_from_zero_amended ["makeGen", "-s", "-f", "a.c"] "makeGen" "a.c" [] rfl (by decide)

/-- C10: empty flag and source sub-sequences are accepted.  On every valid
invocation the run still succeeds — exit code 0, the success message, the file
written — and when the sources marker immediately follows the flags marker the
`CFLAGS=` line carries no tokens and no trailing space, while when `sourceEnd`
immediately follows the sources marker the `TARGETS=` line carries no tokens
and no trailing space. -/
theorem c10_empty_sublists_ok (argv : List String) (si : Nat)
    (h4 : MIN_ARGS ≤ argv.length)
    (hf : argv.getD CFLAGS_FLAG_LOCATION "" = CFLAGS_FLAG)
    (hs : (findFlags argv).1 = some si) :
    (mainRun argv false true).exitCode = 0 ∧
    (mainRun argv false true).stdout = successText ∧
    (mainRun argv false true).written =
      some (makefileContent argv (resolveCompiler argv) si (sourceEndOf argv)) ∧
    (si = CFLAGS_FLAG_LOCATION + 1 →
      "CFLAGS=" ++ joinSp (argSlice argv (CFLAGS_FLAG_LOCATION + 1) si) ++ "\n" =
        "CFLAGS=\n") ∧
    (sourceEndOf argv = si + 1 →
      "TARGETS=" ++ joinSp (argSlice argv (si + 1) (sourceEndOf argv)) = "TARGETS=") := by
  rw [mainRun_success argv si h4 hf hs]
  refine ⟨rfl, rfl, rfl, fun hsi => ?_, fun hse => ?_⟩
  · rw [hsi, argSlice_self]
    rfl
  · rw [hse, argSlice_self]
    rfl

/-- Witness for C10 at `makeGen build -f -s`: both sub-sequences empty, run
succeeds. -/
theorem c10_empty_sublists_ok_witness :
    (mainRun args5 false true).exitCode = 0 ∧
    (mainRun args5 false true).stdout = successText ∧
    (mainRun args5 false true).written =
      some (makefileContent args5 (resolveCompiler args5) 3 (sourceEndOf args5)) ∧
    (3 = CFLAGS_FLAG_LOCATION + 1 →
      "CFLAGS=" ++ joinSp (argSlice args5 (CFLAGS_FLAG_LOCATION + 1) 3) ++ "\n" =
        "CFLAGS=\n") ∧
    (sourceEndOf args5 = 3 + 1 →
      "TARGETS=" ++ joinSp (argSlice args5 (3 + 1) (sourceEndOf args5)) = "TARGETS=") :=
  c10_empty_sublists_ok args5 3 (by decide) (by decide) (by decide)

end MakeGen
